import Mathlib

/-!
Verification of the A2A (agent-to-agent) protocol core of the
HealingShorts factory: the shared data model (`src/server/models.py`),
the protocol client (`src/server/a2a_client.py`), the protocol server
(`src/server/a2a_server.py`), the planner task handler
(`src/server/agents/planner_server.py`) and the negotiation
orchestrator (`src/shorts_factory/server/orchestrator.py`).

Conventions of the shallow embedding:
* Python dict values that flow through `Dict[str, Any]` payloads are
  modelled by the inductive `JValue` (strings, integers, null, nested
  objects), covering every value the studied code paths put into or
  read out of such payloads.  `video_duration` (a Python float used
  only through `int(...)` and truthiness) is modelled as `Option Int`.
* A Python call that may raise is modelled as returning
  `Except String α`, the `String` being `str(e)` of the raised
  exception.  Where the exact text of a library-raised message is not
  reproducible (pydantic ValidationError, AttributeError), a fixed
  descriptive stand-in string is used; no claim depends on those texts.
* Remote agents and the LLM-backed metadata generator are opaque
  collaborators; they enter as function parameters (`AgentEnv`), so
  theorems quantify over all of their behaviours.
-/

namespace A2A

/-- A JSON-ish value as stored in the `Dict[str, Any]` payloads. -/
inductive JValue where
  | str (s : String)
  | int (n : Int)
  | null
  | dict (entries : List (String × JValue))

/-- Python `d.get(k, default)` on an association-list dict. -/
def dictGet (d : List (String × JValue)) (k : String) (dflt : JValue) : JValue :=
  match d.find? (fun p => p.1 == k) with
  | some p => p.2
  | none => dflt

/-- Python truthiness of a `JValue` (`if not topic`, `if feedback`). -/
def jTruthy : JValue → Bool
  | JValue.str s => !(s == "")
  | JValue.int n => !(n == 0)
  | JValue.null => false
  | JValue.dict d => !d.isEmpty

/-- Embed an optional integer (the modelled `video_duration`) as a value. -/
def jOfOptInt : Option Int → JValue
  | some n => JValue.int n
  | none => JValue.null

/-- A2A task state enum (`models.TaskState`). -/
inductive TaskState where
  | pending
  | running
  | completed
  | failed
  | cancelled
deriving DecidableEq, Repr

/-- The wire string of each `TaskState` value (the Python enum values). -/
def TaskState.toWire : TaskState → String
  | TaskState.pending => "pending"
  | TaskState.running => "running"
  | TaskState.completed => "completed"
  | TaskState.failed => "failed"
  | TaskState.cancelled => "cancelled"

/-- A2A task request (`models.Task`): skill id, input payload, optional id. -/
structure Task where
  skill : String
  input : List (String × JValue)
  task_id : Option String


/-- A2A task result (`models.TaskStatus`): state plus optional
output/message/error fields, each defaulting to `None` in the source. -/
structure TaskStatus where
  state : TaskState
  output : Option (List (String × JValue)) := none
  message : Option String := none
  error : Option String := none

/-- One skill of an agent card (`models.AgentSkill`); only the fields the
claims touch are carried (id, name, description). -/
structure AgentSkill where
  id : String
  name : String
  description : String

/-- Agent metadata (`models.AgentCard`), restricted to the fields that
exist independently of transport plumbing. -/
structure AgentCard where
  name : String
  description : String
  url : String
  version : String
  protocol_version : String
  skills : List AgentSkill

/-- Reviewer verdict (`models.ReviewResult`): pydantic declares
`status : str`, `feedback : str`, `score : int` with `ge=0, le=100`. -/
structure ReviewResult where
  status : String
  feedback : String
  score : Int
deriving DecidableEq, Repr

/-- YouTube metadata (`models.YouTubeMetadata`). -/
structure YouTubeMetadata where
  title : String
  description : String
  tags : List String
deriving DecidableEq, Repr

/-- Inter-agent message (`models.AgentMessage`). -/
structure AgentMessage where
  sender : String
  receiver : String
  content : String
  iteration : Nat
deriving DecidableEq, Repr

/-- Parse a wire string into a `TaskState` the way pydantic resolves an
enum-by-value; unknown strings are a validation error. -/
def parseTaskState (s : String) : Except String TaskState :=
  if s == "pending" then Except.ok TaskState.pending
  else if s == "running" then Except.ok TaskState.running
  else if s == "completed" then Except.ok TaskState.completed
  else if s == "failed" then Except.ok TaskState.failed
  else if s == "cancelled" then Except.ok TaskState.cancelled
  else Except.error ("ValidationError: state must be a TaskState value, got " ++ s)

/-- Key lookup in a raw JSON object. -/
def jLookup (fields : List (String × JValue)) (k : String) : Option JValue :=
  (fields.find? (fun p => p.1 == k)).map (fun p => p.2)

/-- Pydantic coercion of an optional `str` field: absent or null gives
`None`, a string gives the string, anything else fails validation. -/
def asOptStr (k : String) : Option JValue → Except String (Option String)
  | none => Except.ok none
  | some JValue.null => Except.ok none
  | some (JValue.str s) => Except.ok (some s)
  | some _ => Except.error ("ValidationError: field " ++ k ++ " must be a string")

/-- Pydantic coercion of an optional `Dict[str, Any]` field. -/
def asOptDict (k : String) : Option JValue → Except String (Option (List (String × JValue)))
  | none => Except.ok none
  | some JValue.null => Except.ok none
  | some (JValue.dict d) => Except.ok (some d)
  | some _ => Except.error ("ValidationError: field " ++ k ++ " must be a mapping")

/-- Pydantic validation of a raw JSON object into a `TaskStatus`, exactly
as `models.TaskStatus` declares it: `state` is a required `TaskState`,
`output` an optional mapping, `message` and `error` optional strings.
The source declares no further validator, so no cross-field condition
is checked here. -/
def TaskStatus.validate (fields : List (String × JValue)) : Except String TaskStatus := do
  let st ← match jLookup fields "state" with
    | some (JValue.str s) => parseTaskState s
    | some _ => Except.error "ValidationError: state must be a string"
    | none => Except.error "ValidationError: state field required"
  let out ← asOptDict "output" (jLookup fields "output")
  let msg ← asOptStr "message" (jLookup fields "message")
  let err ← asOptStr "error" (jLookup fields "error")
  Except.ok { state := st, output := out, message := msg, error := err }

/-- Raw JSON object carrying the four `TaskStatus` fields, used to show
that every field combination passes validation. -/
def taskStatusFields (st : TaskState) (out : Option (List (String × JValue)))
    (msg err : Option String) : List (String × JValue) :=
  [("state", JValue.str st.toWire),
   ("output", match out with | some d => JValue.dict d | none => JValue.null),
   ("message", match msg with | some s => JValue.str s | none => JValue.null),
   ("error", match err with | some s => JValue.str s | none => JValue.null)]

/-! ## Protocol client (`a2a_client.A2AClient.execute_task`) -/

/-- Everything the remote side of one `POST /a2a/tasks` round trip can
do, as seen by `execute_task`: raise a connection-level `httpx`
error, time out (`httpx.TimeoutException`, also an `httpx.HTTPError`),
or deliver a response with a status code and a body whose parse into a
`TaskStatus` either succeeds or raises. -/
inductive RemoteBehavior where
  | connectionError (msg : String)
  | timeout (msg : String)
  | response (status : Nat) (body : Except String TaskStatus)

/-- Stand-in for the message of the `httpx.HTTPStatusError` raised by
`response.raise_for_status()` on a non-2xx status. -/
def httpStatusErrMsg (status : Nat) : String :=
  "HTTP status error " ++ toString status

/-- `A2AClient.execute_task` (`a2a_client.py` lines 44-76): POST the
task, `raise_for_status`, parse the body; `httpx.HTTPError` is turned
into a failed `TaskStatus` with a prefixed error, any other exception
into a failed `TaskStatus` whose error is the exception text.  The
agent url interpolated into the real messages is elided. -/
def execute_task (b : RemoteBehavior) : TaskStatus :=
  match b with
  | RemoteBehavior.connectionError msg =>
      { state := TaskState.failed,
        error := some ("HTTP 요청 실패: " ++ msg),
        message := some "에이전트 통신 실패" }
  | RemoteBehavior.timeout msg =>
      { state := TaskState.failed,
        error := some ("HTTP 요청 실패: " ++ msg),
        message := some "에이전트 통신 실패" }
  | RemoteBehavior.response status body =>
      if 200 ≤ status ∧ status < 300 then
        match body with
        | Except.ok ts => ts
        | Except.error e =>
            { state := TaskState.failed,
              error := some e,
              message := some ("Task 실행 중 오류 발생: " ++ e) }
      else
        { state := TaskState.failed,
          error := some ("HTTP 요청 실패: " ++ httpStatusErrMsg status),
          message := some "에이전트 통신 실패" }

/-- The remote behaviours that count as failures for the client: a
transport error, a timeout, a non-2xx status, or a body that fails to
parse as a `TaskStatus`. -/
def remoteFailed (b : RemoteBehavior) : Prop :=
  match b with
  | RemoteBehavior.connectionError _ => True
  | RemoteBehavior.timeout _ => True
  | RemoteBehavior.response status body =>
      ¬(200 ≤ status ∧ status < 300) ∨ ∃ e, body = Except.error e

/-- The parse-failure exception text is non-empty (true of every
exception actually raised there: JSON decode and pydantic validation
errors always carry a message). -/
def parseErrDescribed (b : RemoteBehavior) : Prop :=
  match b with
  | RemoteBehavior.response _ (Except.error e) => e ≠ ""
  | _ => True

/-! ## Protocol server (`a2a_server.A2AServerBase`) -/

/-- The `POST /a2a/tasks` handler (`a2a_server.py` lines 45-77): invoke
the bound decision function (sync or async, both awaited to one
result) and return its `TaskStatus` as the 200 body; any exception is
converted into a failed `TaskStatus` body instead of propagating.  The
handler is modelled as a total function: its return value is the body
of the HTTP 200 response. -/
def handle_task (handler : Task → Except String TaskStatus) (task : Task) : TaskStatus :=
  match handler task with
  | Except.ok result => result
  | Except.error e =>
      { state := TaskState.failed,
        error := some e,
        message := some ("Task 처리 중 오류 발생: " ++ e) }

/-! ## Planner task handler (`agents/planner_server.py`) -/

/-- `handle_planner_task` (`planner_server.py` lines 18-67).  The
decision function `process` stands for `planner_agent.process`
(input data, context, video duration — passed the raw payload
values); an `Except.error` is a raised exception.  Note the handler
never reads `task.skill`. -/
def handle_planner_task
    (process : JValue → JValue → JValue → Except String String)
    (task : Task) : TaskStatus :=
  let input := task.input
  let topic := dictGet input "topic" (JValue.str "")
  let video_duration := dictGet input "video_duration" JValue.null
  let context := dictGet input "context" JValue.null
  let feedback := dictGet input "feedback" JValue.null
  if jTruthy topic = false then
    { state := TaskState.failed,
      error := some "topic이 제공되지 않았습니다",
      message := some "Task 입력에 topic 필드가 필요합니다" }
  else
    match (if jTruthy feedback then process feedback context video_duration
           else process topic context video_duration) with
    | Except.error e =>
        { state := TaskState.failed,
          error := some e,
          message := some ("프롬프트 생성 실패: " ++ e) }
    | Except.ok prompt =>
        { state := TaskState.completed,
          output := some [("prompt", JValue.str prompt),
                          ("topic", topic),
                          ("video_duration", video_duration)],
          message := some "프롬프트 생성 완료" }

/-- `create_planner_agent_card` (`planner_server.py` lines 71-96): the
planner advertises exactly one skill, id `plan`. -/
def create_planner_agent_card (base_url : String) : AgentCard :=
  { name := "PlannerAgent",
    description := "Healing/ASMR 콘텐츠를 위한 Veo 프롬프트를 생성하는 에이전트",
    url := base_url,
    version := "1.0.0",
    protocol_version := "0.3.0",
    skills := [{ id := "plan",
                 name := "Video Prompt Planning",
                 description := "사용자 키워드를 상세한 Google Veo 프롬프트로 변환합니다." }] }

/-! ## Negotiation orchestrator (`shorts_factory/server/orchestrator.py`) -/

/-- One entry of the `conversation_log` list.  The source appends plain
dicts; the three shapes used there (generate / review / error) are
collected into one record with optional payload fields. -/
structure ConversationEntry where
  iteration : Nat
  agent : String
  action : String
  message : Option AgentMessage := none
  output : Option String := none
  review : Option ReviewResult := none
  errorMsg : Option String := none
deriving DecidableEq, Repr

/-- The dict returned by `run_a2a_workflow`; `error` is absent (`none`)
exactly when the key is absent in the returned dict. -/
structure WorkflowResult where
  success : Bool
  approved_prompt : Option String
  youtube_metadata : Option YouTubeMetadata
  conversation_log : List ConversationEntry
  iterations : Nat
  final_score : Int
  error : Option String
deriving DecidableEq, Repr

/-- The remote collaborators of one workflow run: the planner and
reviewer agents, indexed by attempt number and handed the task the
orchestrator built (an `Except.error` is a raised exception, an
`Except.ok` the `TaskStatus` returned by `execute_task`), and the
metadata generator `planner_for_metadata.generate_youtube_metadata`
composed with the `YouTubeMetadata(**d)` construction (arguments:
approved prompt, original topic). -/
structure AgentEnv where
  planner : Nat → Task → Except String TaskStatus
  reviewer : Nat → Task → Except String TaskStatus
  metadata : String → String → Except String YouTubeMetadata

/-- Python `a or b` on two optional strings (`planner_result.error or
planner_result.message`): an absent or empty left operand yields the
right one. -/
def pyOrStr (a b : Option String) : Option String :=
  match a with
  | some s => if s == "" then b else some s
  | none => b

/-- Rendering of an optional string inside an f-string (`None` prints
as the text None). -/
def fmtOptStr : Option String → String
  | some s => s
  | none => "None"

/-- Terminal error text of the exhaustion branch (line 264). -/
def maxIterMsg (n : Nat) : String :=
  "최대 반복 횟수(" ++ toString n ++ ")에 도달했지만 승인된 프롬프트를 생성하지 못했습니다."

/-- Stand-in text for the pydantic ValidationError raised by
`AgentMessage(content=...)` when the planner output prompt is not a
string. -/
def agentMessageValidationErr : String :=
  "ValidationError: AgentMessage content must be a string"

/-- Stand-in text for the AttributeError raised by
`planner_result.output.get(...)` when `output` is `None`. -/
def outputNoneAttributeErr : String :=
  "AttributeError: NoneType object has no attribute get"

/-- `ReviewResult(status=..., feedback=..., score=...)` built from the
reviewer output dict exactly as at lines 176-180, including the
pydantic validation of the declared field types and the score bounds
`ge=0, le=100`; a validation failure is a raised exception. -/
def mkReviewResult (d : List (String × JValue)) : Except String ReviewResult :=
  match dictGet d "status" (JValue.str "REJECTED") with
  | JValue.str st =>
    match dictGet d "feedback" (JValue.str "") with
    | JValue.str fb =>
      match dictGet d "score" (JValue.int 0) with
      | JValue.int sc =>
          if 0 ≤ sc ∧ sc ≤ 100 then Except.ok { status := st, feedback := fb, score := sc }
          else Except.error "ValidationError: score out of range"
      | _ => Except.error "ValidationError: score must be an integer"
    | _ => Except.error "ValidationError: feedback must be a string"
  | _ => Except.error "ValidationError: status must be a string"

/-- The fallback metadata built at lines 211-224 when
`generate_youtube_metadata` (or the `YouTubeMetadata` construction)
raises. -/
def defaultMetadata (user_topic : String) : YouTubeMetadata :=
  { title := "Healing " ++ user_topic ++ " - Relaxing ASMR Video",
    description := "Experience the calming atmosphere of " ++ user_topic ++
      ". Perfect for meditation, relaxation, and ASMR.",
    tags := ["healing", "asmr", "meditation", "relaxation", user_topic.toLower] }

/-- The metadata stored on approval: the generator result, or the
default on any exception (lines 202-224). -/
def mdOf (env : AgentEnv) (approved_prompt user_topic : String) : YouTubeMetadata :=
  match env.metadata approved_prompt user_topic with
  | Except.ok m => m
  | Except.error _ => defaultMetadata user_topic

/-- The composite retry instruction built at lines 229-235 after a
rejection.  `video_duration` is rendered through Python truthiness:
`None` and `0` both print as Not specified. -/
def rejectionPrompt (user_topic : String) (video_duration : Option Int)
    (feedback : String) : String :=
  "Previous storyboard was REJECTED by Reviewer.\n\n" ++
  "REJECTION REASON:\n" ++ feedback ++ "\n\n" ++
  "ORIGINAL REQUEST: " ++ user_topic ++ "\n" ++
  "REQUIRED DURATION: " ++
  (match video_duration with
   | some d => if d == 0 then "Not specified" else toString d
   | none => "Not specified") ++
  " seconds\n\n" ++
  "You MUST create a NEW storyboard that fixes all issues and keeps the healing/ASMR style."

/-- The planner task input dict built at lines 70-80. -/
def plannerTaskInput (user_topic : String) (video_duration : Option Int)
    (attempt : Nat) (current_prompt : String) : List (String × JValue) :=
  [("topic", JValue.str (if attempt == 1 then user_topic else current_prompt)),
   ("video_duration", jOfOptInt video_duration),
   ("context", if attempt > 1 then
       JValue.str "Previous prompt was rejected by Reviewer. Incorporate the feedback."
     else JValue.null),
   ("feedback", if attempt > 1 then JValue.str current_prompt else JValue.null)]

/-- The planner task of one iteration (line 82). -/
def plannerTaskOf (user_topic : String) (video_duration : Option Int)
    (attempt : Nat) (current_prompt : String) : Task :=
  { skill := "plan",
    input := plannerTaskInput user_topic video_duration attempt current_prompt,
    task_id := none }

/-- The reviewer task of one iteration (lines 144-150). -/
def reviewerTaskOf (generated_prompt : String) (video_duration : Option Int) : Task :=
  { skill := "review",
    input := [("prompt", JValue.str generated_prompt),
              ("expected_duration", jOfOptInt video_duration)],
    task_id := none }

/-- The generate log entry appended at lines 107-122. -/
def genEntry (attempt : Nat) (generated_prompt : String) : ConversationEntry :=
  { iteration := attempt, agent := "PlannerAgent", action := "generate",
    message := some { sender := "PlannerAgent", receiver := "ReviewerAgent",
                      content := generated_prompt, iteration := attempt },
    output := some generated_prompt }

/-- The review log entry appended at lines 182-195. -/
def revEntry (attempt : Nat) (rv : ReviewResult) : ConversationEntry :=
  { iteration := attempt, agent := "ReviewerAgent", action := "review",
    message := some { sender := "ReviewerAgent", receiver := "PlannerAgent",
                      content := rv.feedback, iteration := attempt },
    review := some rv }

/-- An error log entry (appended at lines 86-94, 124-131, 156-164,
237-244). -/
def errEntry (attempt : Nat) (agent : String) (em : Option String) : ConversationEntry :=
  { iteration := attempt, agent := agent, action := "error", errorMsg := em }

/-- A failure return dict of the loop body (lines 95-103, 132-140,
165-173, 245-253): success false, empty payload, score 0. -/
def abortResult (attempts : Nat) (log : List ConversationEntry) (err : String) :
    WorkflowResult :=
  { success := false, approved_prompt := none, youtube_metadata := none,
    conversation_log := log, iterations := attempts, final_score := 0,
    error := some err }

/-- The exhaustion return dict (lines 256-265). -/
def exhaustedResult (max_iterations attempts : Nat) (log : List ConversationEntry) :
    WorkflowResult :=
  { success := false, approved_prompt := none, youtube_metadata := none,
    conversation_log := log, iterations := attempts, final_score := 0,
    error := some (maxIterMsg max_iterations) }

/-- The success return dict (lines 267-274). -/
def approvedResult (attempts : Nat) (log : List ConversationEntry)
    (approved_prompt : String) (md : YouTubeMetadata) (score : Int) : WorkflowResult :=
  { success := true, approved_prompt := some approved_prompt,
    youtube_metadata := some md, conversation_log := log,
    iterations := attempts, final_score := score, error := none }

/-- One pass of the `while attempts < max_iterations` body at the given
attempt number (already incremented): either a terminal result
(`Sum.inl`, covering the four failure returns and the approval break
followed by the success return) or the next `current_prompt` together
with the grown log (`Sum.inr`), for the rejection path. -/
def iterStep (env : AgentEnv) (user_topic : String) (video_duration : Option Int)
    (attempt : Nat) (current_prompt : String) (log : List ConversationEntry) :
    WorkflowResult ⊕ (String × List ConversationEntry) :=
  match env.planner attempt (plannerTaskOf user_topic video_duration attempt current_prompt) with
  | Except.error e =>
      Sum.inl (abortResult attempt (log ++ [errEntry attempt "PlannerAgent" (some e)])
        ("Planner 오류: " ++ e))
  | Except.ok pr =>
    if pr.state ≠ TaskState.completed then
      Sum.inl (abortResult attempt
        (log ++ [errEntry attempt "PlannerAgent" (pyOrStr pr.error pr.message)])
        ("Planner 오류: " ++ fmtOptStr (pyOrStr pr.error pr.message)))
    else
      match pr.output with
      | none =>
          Sum.inl (abortResult attempt
            (log ++ [errEntry attempt "PlannerAgent" (some outputNoneAttributeErr)])
            ("Planner 오류: " ++ outputNoneAttributeErr))
      | some d =>
        match dictGet d "prompt" (JValue.str "") with
        | JValue.str generated_prompt =>
          match env.reviewer attempt (reviewerTaskOf generated_prompt video_duration) with
          | Except.error e =>
              Sum.inl (abortResult attempt
                (log ++ [genEntry attempt generated_prompt,
                         errEntry attempt "ReviewerAgent" (some e)])
                ("Reviewer 오류: " ++ e))
          | Except.ok rr =>
            if rr.state ≠ TaskState.completed then
              Sum.inl (abortResult attempt
                (log ++ [genEntry attempt generated_prompt,
                         errEntry attempt "ReviewerAgent" (pyOrStr rr.error rr.message)])
                ("Reviewer 오류: " ++ fmtOptStr (pyOrStr rr.error rr.message)))
            else
              match mkReviewResult (rr.output.getD []) with
              | Except.error e =>
                  Sum.inl (abortResult attempt
                    (log ++ [genEntry attempt generated_prompt,
                             errEntry attempt "ReviewerAgent" (some e)])
                    ("Reviewer 오류: " ++ e))
              | Except.ok rv =>
                if rv.status = "APPROVED" then
                  Sum.inl (approvedResult attempt
                    (log ++ [genEntry attempt generated_prompt, revEntry attempt rv])
                    generated_prompt (mdOf env generated_prompt user_topic) rv.score)
                else
                  Sum.inr (rejectionPrompt user_topic video_duration rv.feedback,
                    log ++ [genEntry attempt generated_prompt, revEntry attempt rv])
        | _ =>
            Sum.inl (abortResult attempt
              (log ++ [errEntry attempt "PlannerAgent" (some agentMessageValidationErr)])
              ("Planner 오류: " ++ agentMessageValidationErr))

/-- The `while attempts < max_iterations` loop (lines 65-253) followed
by the post-loop returns (lines 256-274), with `fuel` the number of
remaining iterations (`max_iterations - attempts`). -/
def runLoop (env : AgentEnv) (user_topic : String) (video_duration : Option Int)
    (max_iterations : Nat) :
    Nat → Nat → String → List ConversationEntry → WorkflowResult
  | 0, attempts, _, log => exhaustedResult max_iterations attempts log
  | fuel + 1, attempts, current_prompt, log =>
      match iterStep env user_topic video_duration (attempts + 1) current_prompt log with
      | Sum.inl r => r
      | Sum.inr next =>
          runLoop env user_topic video_duration max_iterations fuel (attempts + 1)
            next.1 next.2

/-- `Orchestrator.run_a2a_workflow` (lines 42-274), with the remote
collaborators supplied as `env`.  A caller-supplied `max_iterations`
is already resolved (the source substitutes the instance default 5
when the argument is `None`). -/
def run_a2a_workflow (env : AgentEnv) (user_topic : String)
    (video_duration : Option Int) (max_iterations : Nat) : WorkflowResult :=
  runLoop env user_topic video_duration max_iterations max_iterations 0 user_topic []

/-- The orchestrator instance default for `max_iterations` (line 38). -/
def defaultMaxIterations : Nat := 5

/-- Number of generate entries of a log. -/
def countGen (log : List ConversationEntry) : Nat :=
  (log.filter (fun e => e.action == "generate")).length

/-- Number of review entries of a log. -/
def countRev (log : List ConversationEntry) : Nat :=
  (log.filter (fun e => e.action == "review")).length

/-- Number of entries a given agent contributed to a log. -/
def countAgent (agent : String) (log : List ConversationEntry) : Nat :=
  (log.filter (fun e => e.agent == agent)).length

/-! ## Behaviour predicates for the remote agents -/

/-- The planner call returned a completed `TaskStatus` whose output
carries a string prompt (so the generate path is taken). -/
def plannerCompletes (r : Except String TaskStatus) : Prop :=
  ∃ ts d p, r = Except.ok ts ∧ ts.state = TaskState.completed ∧
    ts.output = some d ∧ dictGet d "prompt" (JValue.str "") = JValue.str p

/-- The reviewer call returned a completed `TaskStatus` whose output
parses into a `ReviewResult` with a non-APPROVED status. -/
def reviewerRejects (r : Except String TaskStatus) : Prop :=
  ∃ ts rv, r = Except.ok ts ∧ ts.state = TaskState.completed ∧
    mkReviewResult (ts.output.getD []) = Except.ok rv ∧ rv.status ≠ "APPROVED"

/-- The reviewer call returned a completed `TaskStatus` whose output
parses into an APPROVED `ReviewResult` with the given score. -/
def reviewerApprovesWith (r : Except String TaskStatus) (s : Int) : Prop :=
  ∃ ts rv, r = Except.ok ts ∧ ts.state = TaskState.completed ∧
    mkReviewResult (ts.output.getD []) = Except.ok rv ∧ rv.status = "APPROVED" ∧
    rv.score = s

/-- The planner call raised, or returned a non-completed `TaskStatus`. -/
def plannerFails (r : Except String TaskStatus) : Prop :=
  (∃ e, r = Except.error e) ∨
  (∃ ts, r = Except.ok ts ∧ ts.state ≠ TaskState.completed)

/-! ## Concrete fixtures used to instantiate the theorems -/

/-- A completed planner response carrying the prompt P. -/
def prOK : TaskStatus :=
  { state := TaskState.completed, output := some [("prompt", JValue.str "P")] }

/-- A completed reviewer response rejecting with score 40. -/
def rrRej : TaskStatus :=
  { state := TaskState.completed,
    output := some [("status", JValue.str "REJECTED"), ("feedback", JValue.str "bad"),
                    ("score", JValue.int 40)] }

/-- A completed reviewer response approving with score 85. -/
def rrApp : TaskStatus :=
  { state := TaskState.completed,
    output := some [("status", JValue.str "APPROVED"), ("feedback", JValue.str "good"),
                    ("score", JValue.int 85)] }

/-- Agents that always complete, with a reviewer that always rejects
and a failing metadata generator. -/
def envAllReject : AgentEnv :=
  { planner := fun _ _ => Except.ok prOK,
    reviewer := fun _ _ => Except.ok rrRej,
    metadata := fun _ _ => Except.error "no api" }

/-- Agents that always complete, with a reviewer that rejects on
attempt 1 and approves on attempt 2, and a failing metadata
generator. -/
def envApproveAt2 : AgentEnv :=
  { planner := fun _ _ => Except.ok prOK,
    reviewer := fun i _ => if i = 2 then Except.ok rrApp else Except.ok rrRej,
    metadata := fun _ _ => Except.error "no api" }

/-- Agents with a planner whose call raises on every attempt. -/
def envPlannerDown : AgentEnv :=
  { planner := fun _ _ => Except.error "connection refused",
    reviewer := fun _ _ => Except.ok rrRej,
    metadata := fun _ _ => Except.error "no api" }

/-- A decision function that echoes the topic into a storyboard. -/
def demoProcess : JValue → JValue → JValue → Except String String
  | JValue.str s, _, _ => Except.ok ("storyboard for " ++ s)
  | _, _, _ => Except.error "bad input"

/-! ## String helper lemmas -/

theorem string_data_append (a b : String) : (a ++ b).data = a.data ++ b.data := by
  cases a; cases b; rfl

theorem string_append_ne_empty (a b : String) (ha : a.data ≠ []) : a ++ b ≠ "" := by
  intro h
  have h2 := congrArg String.data h
  rw [string_data_append] at h2
  rw [show ("" : String).data = [] from rfl] at h2
  exact ha (List.append_eq_nil.mp h2).1

theorem plannerErr_ne_maxIterMsg (s : String) (u : Nat) :
    ("Planner 오류: " ++ s) ≠ maxIterMsg u := by
  intro h
  have h2 := congrArg (fun t => t.data.head?) h
  simp only [maxIterMsg] at h2
  rw [show ("Planner 오류: " ++ s).data.head? = some 'P' from rfl] at h2
  rw [show (("최대 반복 횟수(" ++ toString u ++
      ")에 도달했지만 승인된 프롬프트를 생성하지 못했습니다.").data.head?) = some '최' from ?_] at h2
  · exact absurd h2 (by decide)
  · rw [string_data_append]
    rfl

/-! ## Conversation-log counting lemmas -/

theorem countGen_append (l1 l2 : List ConversationEntry) :
    countGen (l1 ++ l2) = countGen l1 + countGen l2 := by
  simp [countGen, List.filter_append]

theorem countRev_append (l1 l2 : List ConversationEntry) :
    countRev (l1 ++ l2) = countRev l1 + countRev l2 := by
  simp [countRev, List.filter_append]

theorem countGen_pair (a : Nat) (p : String) (rv : ReviewResult) :
    countGen [genEntry a p, revEntry a rv] = 1 := rfl

theorem countRev_pair (a : Nat) (p : String) (rv : ReviewResult) :
    countRev [genEntry a p, revEntry a rv] = 1 := rfl

theorem pairwise_const_le (es : List ConversationEntry) (c : Nat)
    (h : ∀ e ∈ es, e.iteration = c) :
    (es.map ConversationEntry.iteration).Pairwise (· ≤ ·) := by
  induction es with
  | nil => simp
  | cons x xs ih =>
    simp only [List.map_cons, List.pairwise_cons]
    constructor
    · intro b hb
      simp only [List.mem_map] at hb
      obtain ⟨e, he, rfl⟩ := hb
      rw [h x (by simp), h e (by simp [he])]
    · exact ih (fun e he => h e (by simp [he]))

/-! ## Single-iteration lemmas about the orchestrator loop body -/

theorem iterStep_reject (env : AgentEnv) (ut : String) (vd : Option Int)
    (attempt : Nat) (cur : String) (log : List ConversationEntry)
    (hp : ∀ t, plannerCompletes (env.planner attempt t))
    (hr : ∀ t, reviewerRejects (env.reviewer attempt t)) :
    ∃ p rv, rv.status ≠ "APPROVED" ∧
      iterStep env ut vd attempt cur log =
        Sum.inr (rejectionPrompt ut vd rv.feedback,
          log ++ [genEntry attempt p, revEntry attempt rv]) := by
  obtain ⟨ts, d, p, hts, hstate, hout, hprompt⟩ := hp (plannerTaskOf ut vd attempt cur)
  obtain ⟨ts2, rv, hts2, hstate2, hmk, hstat⟩ := hr (reviewerTaskOf p vd)
  refine ⟨p, rv, hstat, ?_⟩
  simp only [iterStep, hts, hstate, hout, hprompt, hts2, hstate2, hmk, ne_eq,
    not_true_eq_false, if_false, ite_false, reduceIte, hstat, if_true]

theorem iterStep_approve (env : AgentEnv) (ut : String) (vd : Option Int)
    (attempt : Nat) (cur : String) (log : List ConversationEntry) (s : Int)
    (hp : ∀ t, plannerCompletes (env.planner attempt t))
    (ha : ∀ t, reviewerApprovesWith (env.reviewer attempt t) s) :
    ∃ p rv, rv.status = "APPROVED" ∧ rv.score = s ∧
      iterStep env ut vd attempt cur log =
        Sum.inl (approvedResult attempt
          (log ++ [genEntry attempt p, revEntry attempt rv]) p (mdOf env p ut) s) := by
  obtain ⟨ts, d, p, hts, hstate, hout, hprompt⟩ := hp (plannerTaskOf ut vd attempt cur)
  obtain ⟨ts2, rv, hts2, hstate2, hmk, hstat, hscore⟩ := ha (reviewerTaskOf p vd)
  refine ⟨p, rv, hstat, hscore, ?_⟩
  simp only [iterStep, hts, hstate, hout, hprompt, hts2, hstate2, hmk, ne_eq,
    not_true_eq_false, if_false, ite_false, reduceIte, hstat, if_true, hscore]

theorem iterStep_plannerFails (env : AgentEnv) (ut : String) (vd : Option Int)
    (attempt : Nat) (cur : String) (log : List ConversationEntry)
    (hf : ∀ t, plannerFails (env.planner attempt t)) :
    ∃ (em : Option String) (s : String),
      iterStep env ut vd attempt cur log =
        Sum.inl (abortResult attempt (log ++ [errEntry attempt "PlannerAgent" em])
          ("Planner 오류: " ++ s)) := by
  rcases hf (plannerTaskOf ut vd attempt cur) with ⟨e, he⟩ | ⟨ts, hts, hstate⟩
  · exact ⟨some e, e, by simp only [iterStep, he]⟩
  · refine ⟨pyOrStr ts.error ts.message, fmtOptStr (pyOrStr ts.error ts.message), ?_⟩
    simp only [iterStep, hts, hstate, ne_eq, reduceIte, if_pos, not_false_eq_true, ite_true]

theorem iterStep_shape (env : AgentEnv) (ut : String) (vd : Option Int)
    (attempt : Nat) (cur : String) (log : List ConversationEntry) :
    (∃ es msg, es ≠ [] ∧ (∀ e ∈ es, e.iteration = attempt) ∧
      iterStep env ut vd attempt cur log = Sum.inl (abortResult attempt (log ++ es) msg)) ∨
    (∃ es p md sc, es ≠ [] ∧ (∀ e ∈ es, e.iteration = attempt) ∧
      iterStep env ut vd attempt cur log =
        Sum.inl (approvedResult attempt (log ++ es) p md sc)) ∨
    (∃ es p, es ≠ [] ∧ (∀ e ∈ es, e.iteration = attempt) ∧
      iterStep env ut vd attempt cur log = Sum.inr (p, log ++ es)) := by
  unfold iterStep
  split
  · exact Or.inl ⟨_, _, by simp, by simp [errEntry], rfl⟩
  · split
    · exact Or.inl ⟨_, _, by simp, by simp [errEntry], rfl⟩
    · split
      · exact Or.inl ⟨_, _, by simp, by simp [errEntry], rfl⟩
      · split
        · split
          · exact Or.inl ⟨_, _, by simp, by simp [errEntry, genEntry], rfl⟩
          · split
            · exact Or.inl ⟨_, _, by simp, by simp [errEntry, genEntry], rfl⟩
            · split
              · exact Or.inl ⟨_, _, by simp, by simp [errEntry, genEntry], rfl⟩
              · split
                · exact Or.inr (Or.inl
                    ⟨_, _, _, _, by simp, by simp [genEntry, revEntry], rfl⟩)
                · exact Or.inr (Or.inr ⟨_, _, by simp, by simp [genEntry, revEntry], rfl⟩)
        · exact Or.inl ⟨_, _, by simp, by simp [errEntry], rfl⟩

/-! ## Whole-loop lemmas -/

theorem runLoop_reject_all (env : AgentEnv) (ut : String) (vd : Option Int) (N : Nat) :
    ∀ (fuel a : Nat) (cur : String) (log : List ConversationEntry),
      (∀ i t, a < i → i ≤ a + fuel → plannerCompletes (env.planner i t)) →
      (∀ i t, a < i → i ≤ a + fuel → reviewerRejects (env.reviewer i t)) →
      ∃ ext, runLoop env ut vd N fuel a cur log =
          exhaustedResult N (a + fuel) (log ++ ext) ∧
        ext.length = 2 * fuel ∧ countGen ext = fuel ∧ countRev ext = fuel := by
  intro fuel
  induction fuel with
  | zero =>
    intro a cur log _ _
    exact ⟨[], by simp [runLoop], rfl, rfl, rfl⟩
  | succ f ih =>
    intro a cur log hp hr
    obtain ⟨p, rv, hst, hstep⟩ := iterStep_reject env ut vd (a + 1) cur log
      (fun t => hp (a + 1) t (by omega) (by omega))
      (fun t => hr (a + 1) t (by omega) (by omega))
    obtain ⟨ext, hrun, hlen, hg, hv⟩ := ih (a + 1) (rejectionPrompt ut vd rv.feedback)
      (log ++ [genEntry (a + 1) p, revEntry (a + 1) rv])
      (fun i t h1 h2 => hp i t (by omega) (by omega))
      (fun i t h1 h2 => hr i t (by omega) (by omega))
    refine ⟨[genEntry (a + 1) p, revEntry (a + 1) rv] ++ ext, ?_, ?_, ?_, ?_⟩
    · simp only [runLoop, hstep]
      rw [hrun]
      rw [show a + 1 + f = a + (f + 1) by omega, List.append_assoc]
    · simp at hlen ⊢
      omega
    · rw [countGen_append, countGen_pair, hg]; omega
    · rw [countRev_append, countRev_pair, hv]; omega

theorem runLoop_approve (env : AgentEnv) (ut : String) (vd : Option Int)
    (N : Nat) (s : Int) :
    ∀ (k fuel a : Nat) (cur : String) (log : List ConversationEntry),
      1 ≤ k → k ≤ fuel →
      (∀ i t, a < i → i ≤ a + k → plannerCompletes (env.planner i t)) →
      (∀ i t, a < i → i < a + k → reviewerRejects (env.reviewer i t)) →
      (∀ t, reviewerApprovesWith (env.reviewer (a + k) t) s) →
      ∃ pre p rv,
        runLoop env ut vd N fuel a cur log =
          approvedResult (a + k)
            (log ++ (pre ++ [genEntry (a + k) p, revEntry (a + k) rv]))
            p (mdOf env p ut) s ∧
        pre.length = 2 * (k - 1) ∧ countGen pre = k - 1 ∧ countRev pre = k - 1 := by
  intro k
  induction k with
  | zero => intro fuel a cur log h1; exact absurd h1 (by omega)
  | succ k ih =>
    intro fuel a cur log h1 h2 hp hr ha
    obtain ⟨f, rfl⟩ : ∃ f, fuel = f + 1 := ⟨fuel - 1, by omega⟩
    rcases Nat.eq_zero_or_pos k with hk0 | hkpos
    · subst hk0
      obtain ⟨p, rv, hst, hsc, hstep⟩ := iterStep_approve env ut vd (a + 1) cur log s
        (fun t => hp (a + 1) t (by omega) (by omega))
        (fun t => ha t)
      refine ⟨[], p, rv, ?_, rfl, rfl, rfl⟩
      simp only [runLoop, hstep, List.nil_append]
    · obtain ⟨p1, rv1, hst1, hstep⟩ := iterStep_reject env ut vd (a + 1) cur log
        (fun t => hp (a + 1) t (by omega) (by omega))
        (fun t => hr (a + 1) t (by omega) (by omega))
      have ha2 : ∀ t, reviewerApprovesWith (env.reviewer (a + 1 + k) t) s := by
        intro t
        have h := ha t
        rwa [show a + (k + 1) = a + 1 + k by omega] at h
      obtain ⟨pre, p, rv, hrun, hlen, hg, hv⟩ := ih f (a + 1)
        (rejectionPrompt ut vd rv1.feedback)
        (log ++ [genEntry (a + 1) p1, revEntry (a + 1) rv1])
        hkpos (by omega)
        (fun i t hi1 hi2 => hp i t (by omega) (by omega))
        (fun i t hi1 hi2 => hr i t (by omega) (by omega))
        ha2
      refine ⟨[genEntry (a + 1) p1, revEntry (a + 1) rv1] ++ pre, p, rv, ?_, ?_, ?_, ?_⟩
      · simp only [runLoop, hstep]
        rw [hrun]
        rw [show a + 1 + k = a + (k + 1) by omega, List.append_assoc, List.append_assoc]
      · simp at hlen ⊢
        omega
      · rw [countGen_append, countGen_pair, hg]; omega
      · rw [countRev_append, countRev_pair, hv]; omega

theorem runLoop_log (env : AgentEnv) (ut : String) (vd : Option Int) (N : Nat) :
    ∀ (fuel a : Nat) (cur : String) (log : List ConversationEntry),
      (∀ e ∈ log, e.iteration ≤ a) →
      (log.map ConversationEntry.iteration).Pairwise (· ≤ ·) →
      (∀ e ∈ (runLoop env ut vd N fuel a cur log).conversation_log,
          e.iteration ≤ a + fuel) ∧
      ((runLoop env ut vd N fuel a cur log).conversation_log.map
          ConversationEntry.iteration).Pairwise (· ≤ ·) ∧
      log.length ≤ (runLoop env ut vd N fuel a cur log).conversation_log.length ∧
      (1 ≤ fuel →
        log.length < (runLoop env ut vd N fuel a cur log).conversation_log.length) := by
  intro fuel
  induction fuel with
  | zero =>
    intro a cur log hb hpw
    refine ⟨by simpa [runLoop, exhaustedResult] using hb, ?_, ?_, ?_⟩
    · simpa [runLoop, exhaustedResult] using hpw
    · simp [runLoop, exhaustedResult]
    · omega
  | succ f ih =>
    intro a cur log hb hpw
    have hterm : ∀ (es rlog : List ConversationEntry),
        es ≠ [] → (∀ e ∈ es, e.iteration = a + 1) → rlog = log ++ es →
        (∀ e ∈ rlog, e.iteration ≤ a + (f + 1)) ∧
        (rlog.map ConversationEntry.iteration).Pairwise (· ≤ ·) ∧
        log.length ≤ rlog.length ∧
        (1 ≤ f + 1 → log.length < rlog.length) := by
      intro es rlog hne hiter hth
      subst hth
      refine ⟨?_, ?_, ?_, ?_⟩
      · intro e he
        rcases List.mem_append.1 he with h | h
        · have := hb e h; omega
        · rw [hiter e h]; omega
      · rw [List.map_append, List.pairwise_append]
        refine ⟨hpw, pairwise_const_le es (a + 1) hiter, ?_⟩
        intro x hx y hy
        simp only [List.mem_map] at hx hy
        obtain ⟨e1, he1, rfl⟩ := hx
        obtain ⟨e2, he2, rfl⟩ := hy
        have := hb e1 he1
        rw [hiter e2 he2]
        omega
      · simp
      · intro _
        simp only [List.length_append]
        have : 0 < es.length := List.length_pos.2 hne
        omega
    rcases iterStep_shape env ut vd (a + 1) cur log with
      ⟨es, msg, hne, hiter, hstep⟩ | ⟨es, p, md, sc, hne, hiter, hstep⟩ |
      ⟨es, p, hne, hiter, hstep⟩
    · have hred : runLoop env ut vd N (f + 1) a cur log =
          abortResult (a + 1) (log ++ es) msg := by
        simp only [runLoop, hstep]
      rw [hred]
      exact hterm es (log ++ es) hne hiter rfl
    · have hred : runLoop env ut vd N (f + 1) a cur log =
          approvedResult (a + 1) (log ++ es) p md sc := by
        simp only [runLoop, hstep]
      rw [hred]
      exact hterm es (log ++ es) hne hiter rfl
    · have hred : runLoop env ut vd N (f + 1) a cur log =
          runLoop env ut vd N f (a + 1) p (log ++ es) := by
        simp only [runLoop, hstep]
      have hb2 : ∀ e ∈ log ++ es, e.iteration ≤ a + 1 := by
        intro e he
        rcases List.mem_append.1 he with h | h
        · have := hb e h; omega
        · rw [hiter e h]
      have hpw2 : ((log ++ es).map ConversationEntry.iteration).Pairwise (· ≤ ·) := by
        rw [List.map_append, List.pairwise_append]
        refine ⟨hpw, pairwise_const_le es (a + 1) hiter, ?_⟩
        intro x hx y hy
        simp only [List.mem_map] at hx hy
        obtain ⟨e1, he1, rfl⟩ := hx
        obtain ⟨e2, he2, rfl⟩ := hy
        have := hb e1 he1
        rw [hiter e2 he2]
        omega
      obtain ⟨ih1, ih2, ih3, ih4⟩ := ih (a + 1) p (log ++ es) hb2 hpw2
      rw [hred]
      refine ⟨?_, ih2, ?_, ?_⟩
      · intro e he
        have := ih1 e he
        omega
      · have : log.length ≤ (log ++ es).length := by simp
        omega
      · intro _
        have hlt : log.length < (log ++ es).length := by
          simp only [List.length_append]
          have : 0 < es.length := List.length_pos.2 hne
          omega
        omega

theorem runLoop_inv (env : AgentEnv) (ut : String) (vd : Option Int) (N : Nat) :
    ∀ (fuel a : Nat) (cur : String) (log : List ConversationEntry),
      ((runLoop env ut vd N fuel a cur log).success = false →
        (runLoop env ut vd N fuel a cur log).approved_prompt = none ∧
        (runLoop env ut vd N fuel a cur log).youtube_metadata = none ∧
        (runLoop env ut vd N fuel a cur log).final_score = 0) ∧
      ((runLoop env ut vd N fuel a cur log).success = true →
        (runLoop env ut vd N fuel a cur log).approved_prompt.isSome ∧
        (runLoop env ut vd N fuel a cur log).youtube_metadata.isSome) := by
  intro fuel
  induction fuel with
  | zero =>
    intro a cur log
    exact ⟨fun _ => ⟨rfl, rfl, rfl⟩, fun h => by simp [runLoop, exhaustedResult] at h⟩
  | succ f ih =>
    intro a cur log
    rcases iterStep_shape env ut vd (a + 1) cur log with
      ⟨es, msg, _, _, hstep⟩ | ⟨es, p, md, sc, _, _, hstep⟩ | ⟨es, p, _, _, hstep⟩
    · have hred : runLoop env ut vd N (f + 1) a cur log =
          abortResult (a + 1) (log ++ es) msg := by simp only [runLoop, hstep]
      rw [hred]
      exact ⟨fun _ => ⟨rfl, rfl, rfl⟩, fun h => by simp [abortResult] at h⟩
    · have hred : runLoop env ut vd N (f + 1) a cur log =
          approvedResult (a + 1) (log ++ es) p md sc := by simp only [runLoop, hstep]
      rw [hred]
      exact ⟨fun h => by simp [approvedResult] at h, fun _ => ⟨rfl, rfl⟩⟩
    · have hred : runLoop env ut vd N (f + 1) a cur log =
          runLoop env ut vd N f (a + 1) p (log ++ es) := by simp only [runLoop, hstep]
      rw [hred]
      exact ih (a + 1) p (log ++ es)

/-! ## Claim theorems -/

/-- Claim C1: for every run of `run_a2a_workflow` with
`max_iterations = N` (N at least 1) against a generator that always
returns a completed result and a reviewer that always returns a
completed result with a non-APPROVED status, the loop performs exactly
N generate/review round trips (N generator calls and N reviewer calls,
counted by the one generate and one review log entry each such call
produces), the conversation log has exactly 2N entries, and the
returned outcome has `success = false` with the
max-iterations-exhausted error message. -/
theorem claim_C1_all_reject_exhausts (env : AgentEnv) (ut : String) (vd : Option Int)
    (N : Nat) (hN : 1 ≤ N)
    (hp : ∀ i t, plannerCompletes (env.planner i t))
    (hr : ∀ i t, reviewerRejects (env.reviewer i t)) :
    countGen (run_a2a_workflow env ut vd N).conversation_log = N ∧
    countRev (run_a2a_workflow env ut vd N).conversation_log = N ∧
    (run_a2a_workflow env ut vd N).conversation_log.length = 2 * N ∧
    (run_a2a_workflow env ut vd N).iterations = N ∧
    (run_a2a_workflow env ut vd N).success = false ∧
    (run_a2a_workflow env ut vd N).error = some (maxIterMsg N) := by
  obtain ⟨ext, hrun, hlen, hg, hv⟩ := runLoop_reject_all env ut vd N N 0 ut []
    (fun i t _ _ => hp i t) (fun i t _ _ => hr i t)
  have hr2 : run_a2a_workflow env ut vd N = exhaustedResult N (0 + N) ([] ++ ext) := hrun
  rw [hr2]
  exact ⟨hg, hv, hlen, Nat.zero_add N, rfl, rfl⟩

/-- Witness for claim C1 at the concrete always-rejecting environment
with N equal 2. -/
theorem claim_C1_witness :
    countGen (run_a2a_workflow envAllReject "Rain" none 2).conversation_log = 2 ∧
    countRev (run_a2a_workflow envAllReject "Rain" none 2).conversation_log = 2 ∧
    (run_a2a_workflow envAllReject "Rain" none 2).conversation_log.length = 2 * 2 ∧
    (run_a2a_workflow envAllReject "Rain" none 2).iterations = 2 ∧
    (run_a2a_workflow envAllReject "Rain" none 2).success = false ∧
    (run_a2a_workflow envAllReject "Rain" none 2).error = some (maxIterMsg 2) :=
  claim_C1_all_reject_exhausts envAllReject "Rain" none 2 (by omega)
    (fun i t => ⟨prOK, [("prompt", JValue.str "P")], "P", rfl, rfl, rfl, rfl⟩)
    (fun i t => ⟨rrRej, ⟨"REJECTED", "bad", 40⟩, rfl, rfl, rfl, by decide⟩)

/-- Claim C2: against completed-returning agents where the reviewer
rejects attempts 1..k-1 and approves with score s on attempt k
(k at most N), the loop performs exactly k round trips, the log has
exactly 2k entries, and the outcome has `success = true`,
`final_score = s`, and `approved_prompt` equal to the k-th generated
content (the output of the k-th generate log entry, which sits at
index 2k-2 just before the final review entry). -/
theorem claim_C2_approval_on_kth_attempt (env : AgentEnv) (ut : String)
    (vd : Option Int) (N k : Nat) (s : Int) (hk : 1 ≤ k) (hkN : k ≤ N)
    (hp : ∀ i t, 1 ≤ i → i ≤ k → plannerCompletes (env.planner i t))
    (hr : ∀ i t, 1 ≤ i → i < k → reviewerRejects (env.reviewer i t))
    (ha : ∀ t, reviewerApprovesWith (env.reviewer k t) s) :
    countGen (run_a2a_workflow env ut vd N).conversation_log = k ∧
    countRev (run_a2a_workflow env ut vd N).conversation_log = k ∧
    (run_a2a_workflow env ut vd N).conversation_log.length = 2 * k ∧
    (run_a2a_workflow env ut vd N).success = true ∧
    (run_a2a_workflow env ut vd N).iterations = k ∧
    (run_a2a_workflow env ut vd N).final_score = s ∧
    ∃ p rv, (run_a2a_workflow env ut vd N).approved_prompt = some p ∧
      (run_a2a_workflow env ut vd N).conversation_log.drop (2 * k - 2) =
        [genEntry k p, revEntry k rv] := by
  obtain ⟨pre, p, rv, hrun, hlen, hg, hv⟩ := runLoop_approve env ut vd N s k N 0 ut []
    hk hkN
    (fun i t h1 h2 => hp i t (by omega) (by omega))
    (fun i t h1 h2 => hr i t (by omega) (by omega))
    (by rw [Nat.zero_add]; exact ha)
  have hr2 : run_a2a_workflow env ut vd N =
      approvedResult (0 + k) ([] ++ (pre ++ [genEntry (0 + k) p, revEntry (0 + k) rv]))
        p (mdOf env p ut) s := hrun
  rw [Nat.zero_add] at hr2
  rw [hr2]
  have hcl : (approvedResult k ([] ++ (pre ++ [genEntry k p, revEntry k rv]))
      p (mdOf env p ut) s).conversation_log = pre ++ [genEntry k p, revEntry k rv] := rfl
  refine ⟨?_, ?_, ?_, rfl, rfl, rfl, p, rv, rfl, ?_⟩
  · rw [hcl, countGen_append, countGen_pair, hg]; omega
  · rw [hcl, countRev_append, countRev_pair, hv]; omega
  · rw [hcl]; simp only [List.length_append, List.length_cons, List.length_nil]; omega
  · rw [hcl, show 2 * k - 2 = pre.length by omega, List.drop_left]

/-- Witness for claim C2 at the concrete environment approving on
attempt 2 of 3 with score 85. -/
theorem claim_C2_witness :
    countGen (run_a2a_workflow envApproveAt2 "Rain" none 3).conversation_log = 2 ∧
    countRev (run_a2a_workflow envApproveAt2 "Rain" none 3).conversation_log = 2 ∧
    (run_a2a_workflow envApproveAt2 "Rain" none 3).conversation_log.length = 2 * 2 ∧
    (run_a2a_workflow envApproveAt2 "Rain" none 3).success = true ∧
    (run_a2a_workflow envApproveAt2 "Rain" none 3).iterations = 2 ∧
    (run_a2a_workflow envApproveAt2 "Rain" none 3).final_score = 85 ∧
    ∃ p rv, (run_a2a_workflow envApproveAt2 "Rain" none 3).approved_prompt = some p ∧
      (run_a2a_workflow envApproveAt2 "Rain" none 3).conversation_log.drop (2 * 2 - 2) =
        [genEntry 2 p, revEntry 2 rv] :=
  claim_C2_approval_on_kth_attempt envApproveAt2 "Rain" none 3 2 85
    (by omega) (by omega)
    (fun i t _ _ => ⟨prOK, [("prompt", JValue.str "P")], "P", rfl, rfl, rfl, rfl⟩)
    (fun i t h1 h2 => by
      have hi : i = 1 := by omega
      subst hi
      exact ⟨rrRej, ⟨"REJECTED", "bad", 40⟩, rfl, rfl, rfl, by decide⟩)
    (fun t => ⟨rrApp, ⟨"APPROVED", "good", 85⟩, rfl, rfl, rfl, rfl, rfl⟩)

/-- Claim C3: `execute_task` is a total function into `TaskStatus`
(never raises), and on every remote failure (connection error,
timeout, non-2xx status, or a body that fails to parse as a
`TaskStatus`) the returned status has state failed with a non-empty
error, given that a parse-failure exception carries a non-empty
description. -/
theorem claim_C3_execute_task_failure_contained (b : RemoteBehavior)
    (hfail : remoteFailed b) (hdesc : parseErrDescribed b) :
    (execute_task b).state = TaskState.failed ∧
    ∃ e, (execute_task b).error = some e ∧ e ≠ "" := by
  cases b with
  | connectionError msg =>
    refine ⟨rfl, "HTTP 요청 실패: " ++ msg, rfl, ?_⟩
    apply string_append_ne_empty
    simp
  | timeout msg =>
    refine ⟨rfl, "HTTP 요청 실패: " ++ msg, rfl, ?_⟩
    apply string_append_ne_empty
    simp
  | response status body =>
    by_cases h2 : 200 ≤ status ∧ status < 300
    · rcases hfail with hbad | ⟨e, rfl⟩
      · exact absurd h2 hbad
      · refine ⟨?_, e, ?_, hdesc⟩
        · simp only [execute_task, if_pos h2]
        · simp only [execute_task, if_pos h2]
    · refine ⟨?_, "HTTP 요청 실패: " ++ httpStatusErrMsg status, ?_, ?_⟩
      · simp only [execute_task, if_neg h2]
      · simp only [execute_task, if_neg h2]
      · apply string_append_ne_empty
        simp

/-- Witness for claim C3 at a concrete connection error. -/
theorem claim_C3_witness :
    (execute_task (RemoteBehavior.connectionError "connection refused")).state =
      TaskState.failed ∧
    ∃ e, (execute_task (RemoteBehavior.connectionError "connection refused")).error =
        some e ∧ e ≠ "" :=
  claim_C3_execute_task_failure_contained
    (RemoteBehavior.connectionError "connection refused") trivial trivial

/-- Claim C4: the `POST /a2a/tasks` handler returns a `TaskStatus` body
for every bound decision function (always HTTP 200, the handler is a
total function): an exception from the decision function becomes a
failed status carrying the exception description as error plus a
diagnostic message, and a normal return is passed through unchanged. -/
theorem claim_C4_server_converts_handler_exceptions
    (handler : Task → Except String TaskStatus) (task : Task) :
    (∀ e, handler task = Except.error e →
      handle_task handler task =
        { state := TaskState.failed, output := none,
          message := some ("Task 처리 중 오류 발생: " ++ e), error := some e }) ∧
    (∀ ts, handler task = Except.ok ts → handle_task handler task = ts) := by
  constructor
  · intro e he
    simp [handle_task, he]
  · intro ts hts
    simp [handle_task, hts]

/-- Witness for claim C4 at a raising and a normal concrete handler. -/
theorem claim_C4_witness :
    handle_task (fun _ => Except.error "boom")
        { skill := "plan", input := [], task_id := none } =
      { state := TaskState.failed, output := none,
        message := some ("Task 처리 중 오류 발생: " ++ "boom"), error := some "boom" } ∧
    handle_task (fun _ => Except.ok prOK)
        { skill := "plan", input := [], task_id := none } = prOK :=
  ⟨(claim_C4_server_converts_handler_exceptions (fun _ => Except.error "boom")
      { skill := "plan", input := [], task_id := none }).1 "boom" rfl,
   (claim_C4_server_converts_handler_exceptions (fun _ => Except.ok prOK)
      { skill := "plan", input := [], task_id := none }).2 prOK rfl⟩

/-- Claim C5: if the generator call of attempt 1 raises or returns a
non-completed result, the orchestrator aborts immediately after that
first generator interaction: the log is the single planner error
entry, no reviewer entry exists, `success = false`, and the error
carries the Planner-error marker, which differs from the
max-iterations-exhausted message of every bound. -/
theorem claim_C5_generator_failure_fail_fast (env : AgentEnv) (ut : String)
    (vd : Option Int) (N : Nat) (hN : 1 ≤ N)
    (hf : ∀ t, plannerFails (env.planner 1 t)) :
    (run_a2a_workflow env ut vd N).success = false ∧
    (run_a2a_workflow env ut vd N).iterations = 1 ∧
    countAgent "ReviewerAgent" (run_a2a_workflow env ut vd N).conversation_log = 0 ∧
    countRev (run_a2a_workflow env ut vd N).conversation_log = 0 ∧
    ∃ em s, (run_a2a_workflow env ut vd N).conversation_log =
        [errEntry 1 "PlannerAgent" em] ∧
      (run_a2a_workflow env ut vd N).error = some ("Planner 오류: " ++ s) ∧
      ∀ m : Nat, ("Planner 오류: " ++ s) ≠ maxIterMsg m := by
  obtain ⟨f, rfl⟩ : ∃ f, N = f + 1 := ⟨N - 1, by omega⟩
  obtain ⟨em, s, hstep⟩ := iterStep_plannerFails env ut vd (0 + 1) ut [] (fun t => hf t)
  have hr2 : run_a2a_workflow env ut vd (f + 1) =
      abortResult (0 + 1) ([] ++ [errEntry (0 + 1) "PlannerAgent" em])
        ("Planner 오류: " ++ s) := by
    unfold run_a2a_workflow
    simp only [runLoop, hstep]
  rw [hr2]
  exact ⟨rfl, rfl, rfl, rfl, em, s, rfl, rfl, fun m => plannerErr_ne_maxIterMsg s m⟩

/-- Witness for claim C5 at a concrete raising planner. -/
theorem claim_C5_witness :
    (run_a2a_workflow envPlannerDown "Rain" none 1).success = false ∧
    (run_a2a_workflow envPlannerDown "Rain" none 1).iterations = 1 ∧
    countAgent "ReviewerAgent"
      (run_a2a_workflow envPlannerDown "Rain" none 1).conversation_log = 0 ∧
    countRev (run_a2a_workflow envPlannerDown "Rain" none 1).conversation_log = 0 ∧
    ∃ em s, (run_a2a_workflow envPlannerDown "Rain" none 1).conversation_log =
        [errEntry 1 "PlannerAgent" em] ∧
      (run_a2a_workflow envPlannerDown "Rain" none 1).error =
        some ("Planner 오류: " ++ s) ∧
      ∀ m : Nat, ("Planner 오류: " ++ s) ≠ maxIterMsg m :=
  claim_C5_generator_failure_fail_fast envPlannerDown "Rain" none 1 (by omega)
    (fun t => Or.inl ⟨"connection refused", rfl⟩)

/-- Claim C6 counterexample: the `TaskStatus` model enforces no
cross-field invariant at validation.  The raw object with only
`state = failed` validates into a status whose error is `none`,
refuting the claim that `state = failed` holds only with a present
non-empty error and that the invariant is enforced at
construction/validation. -/
theorem claim_C6_counterexample :
    ¬(∀ (fields : List (String × JValue)) (ts : TaskStatus),
        TaskStatus.validate fields = Except.ok ts →
        ((ts.state = TaskState.failed ↔ ∃ e, ts.error = some e ∧ e ≠ "") ∧
         (ts.state = TaskState.completed → ts.output.isSome ∧ ts.error = none))) := by
  intro h
  obtain ⟨hiff, _⟩ := h [("state", JValue.str "failed")] { state := TaskState.failed } rfl
  obtain ⟨e, he, _⟩ := hiff.mp rfl
  exact Option.noConfusion he

/-- Claim C6 amended: validation of the `TaskStatus` model checks field
types only (a valid state string, optional mapping output, optional
string message and error); every combination of state, output,
message and error is accepted, so the failed-iff-error and
completed-implies-output invariants are not enforced by the data
model. -/
theorem claim_C6_amended_validation_field_types_only (st : TaskState)
    (out : Option (List (String × JValue))) (msg err : Option String) :
    TaskStatus.validate (taskStatusFields st out msg err) =
      Except.ok { state := st, output := out, message := msg, error := err } := by
  cases st <;> cases out <;> cases msg <;> cases err <;> rfl

/-- Claim C7: every terminal outcome of `run_a2a_workflow` with a
positive `max_iterations` carries a non-empty conversation log whose
entries are in call order (iteration numbers are nondecreasing along
the log). -/
theorem claim_C7_terminal_log_nonempty_ordered (env : AgentEnv) (ut : String)
    (vd : Option Int) (N : Nat) (hN : 1 ≤ N) :
    (run_a2a_workflow env ut vd N).conversation_log ≠ [] ∧
    ((run_a2a_workflow env ut vd N).conversation_log.map
        ConversationEntry.iteration).Pairwise (· ≤ ·) := by
  obtain ⟨h1, h2, h3, h4⟩ := runLoop_log env ut vd N N 0 ut [] (by simp) (by simp)
  refine ⟨?_, h2⟩
  have hlen := h4 hN
  simp only [List.length_nil] at hlen
  exact List.ne_nil_of_length_pos hlen

/-- Witness for claim C7 at the concrete always-rejecting environment
with N equal 1. -/
theorem claim_C7_witness :
    (run_a2a_workflow envAllReject "Rain" none 1).conversation_log ≠ [] ∧
    ((run_a2a_workflow envAllReject "Rain" none 1).conversation_log.map
        ConversationEntry.iteration).Pairwise (· ≤ ·) :=
  claim_C7_terminal_log_nonempty_ordered envAllReject "Rain" none 1 (by omega)

/-- Claim C8: when the reviewer approves (on attempt k of at most N)
and the metadata generator always raises, the run still returns
`success = true` and substitutes the default metadata derived
deterministically from the original topic, whose title and
description are non-empty strings and whose tag list is non-empty. -/
theorem claim_C8_metadata_failure_nonfatal (env : AgentEnv) (ut : String)
    (vd : Option Int) (N k : Nat) (s : Int) (hk : 1 ≤ k) (hkN : k ≤ N)
    (hp : ∀ i t, 1 ≤ i → i ≤ k → plannerCompletes (env.planner i t))
    (hr : ∀ i t, 1 ≤ i → i < k → reviewerRejects (env.reviewer i t))
    (ha : ∀ t, reviewerApprovesWith (env.reviewer k t) s)
    (hm : ∀ p t, ∃ e, env.metadata p t = Except.error e) :
    (run_a2a_workflow env ut vd N).success = true ∧
    (run_a2a_workflow env ut vd N).youtube_metadata = some (defaultMetadata ut) ∧
    (defaultMetadata ut).title ≠ "" ∧
    (defaultMetadata ut).description ≠ "" ∧
    (defaultMetadata ut).tags ≠ [] := by
  obtain ⟨pre, p, rv, hrun, hlen, hg, hv⟩ := runLoop_approve env ut vd N s k N 0 ut []
    hk hkN
    (fun i t h1 h2 => hp i t (by omega) (by omega))
    (fun i t h1 h2 => hr i t (by omega) (by omega))
    (by rw [Nat.zero_add]; exact ha)
  have hr2 : run_a2a_workflow env ut vd N =
      approvedResult (0 + k) ([] ++ (pre ++ [genEntry (0 + k) p, revEntry (0 + k) rv]))
        p (mdOf env p ut) s := hrun
  rw [hr2]
  refine ⟨rfl, ?_, ?_, ?_, by simp [defaultMetadata]⟩
  · obtain ⟨e, he⟩ := hm p ut
    show some (mdOf env p ut) = some (defaultMetadata ut)
    rw [mdOf, he]
  · apply string_append_ne_empty
    rw [string_data_append]
    simp
  · apply string_append_ne_empty
    rw [string_data_append]
    simp

/-- Witness for claim C8 at the concrete environment approving on
attempt 2 of 3 with a failing metadata generator. -/
theorem claim_C8_witness :
    (run_a2a_workflow envApproveAt2 "Rain" none 3).success = true ∧
    (run_a2a_workflow envApproveAt2 "Rain" none 3).youtube_metadata =
      some (defaultMetadata "Rain") ∧
    (defaultMetadata "Rain").title ≠ "" ∧
    (defaultMetadata "Rain").description ≠ "" ∧
    (defaultMetadata "Rain").tags ≠ [] :=
  claim_C8_metadata_failure_nonfatal envApproveAt2 "Rain" none 3 2 85
    (by omega) (by omega)
    (fun i t _ _ => ⟨prOK, [("prompt", JValue.str "P")], "P", rfl, rfl, rfl, rfl⟩)
    (fun i t h1 h2 => by
      have hi : i = 1 := by omega
      subst hi
      exact ⟨rrRej, ⟨"REJECTED", "bad", 40⟩, rfl, rfl, rfl, by decide⟩)
    (fun t => ⟨rrApp, ⟨"APPROVED", "good", 85⟩, rfl, rfl, rfl, rfl, rfl⟩)
    (fun p t => ⟨"no api", rfl⟩)

/-- Claim C9 counterexample: a task naming the skill id fly, which the
planner card does not advertise, is not surfaced as failed: the
handler dispatches it to the decision function as if the registered
skill had been named, returning a completed status whose output
carries the generated prompt. -/
theorem claim_C9_counterexample :
    ("fly" ∉ (create_planner_agent_card "http://localhost:8001").skills.map
      AgentSkill.id) ∧
    (handle_planner_task demoProcess
        { skill := "fly", input := [("topic", JValue.str "Rain")],
          task_id := none }).state = TaskState.completed ∧
    (handle_planner_task demoProcess
        { skill := "fly", input := [("topic", JValue.str "Rain")],
          task_id := none }).output =
      some [("prompt", JValue.str "storyboard for Rain"),
            ("topic", JValue.str "Rain"), ("video_duration", JValue.null)] := by
  refine ⟨?_, rfl, rfl⟩
  simp [create_planner_agent_card]

/-- Claim C9 amended: the server performs no skill-id validation at
all: the planner handler treats every skill id identically
(replacing the skill id leaves the result unchanged), and the only
contract check it performs is on the input payload, failing with a
descriptive error exactly when the required topic field is missing or
falsy. -/
theorem claim_C9_amended_skill_not_validated
    (process : JValue → JValue → JValue → Except String String)
    (task : Task) (s : String) :
    handle_planner_task process { task with skill := s } =
      handle_planner_task process task ∧
    (jTruthy (dictGet task.input "topic" (JValue.str "")) = false →
      (handle_planner_task process task).state = TaskState.failed ∧
      (handle_planner_task process task).error =
        some "topic이 제공되지 않았습니다") := by
  constructor
  · rfl
  · intro h
    constructor
    · simp only [handle_planner_task, h, reduceIte]
    · simp only [handle_planner_task, h, reduceIte]

/-- Witness for the amended claim C9 at a concrete topic-less task. -/
theorem claim_C9_witness :
    (handle_planner_task demoProcess
        { skill := "plan", input := [], task_id := none }).state = TaskState.failed ∧
    (handle_planner_task demoProcess
        { skill := "plan", input := [], task_id := none }).error =
      some "topic이 제공되지 않았습니다" :=
  (claim_C9_amended_skill_not_validated demoProcess
    { skill := "plan", input := [], task_id := none } "x").2 rfl

/-- Claim C10: every failure return of `run_a2a_workflow` has
`approved_prompt = none`, `youtube_metadata = none` and
`final_score = 0` (regardless of scores seen on rejected attempts),
and every success return carries a present approved prompt and
present metadata. -/
theorem claim_C10_payload_iff_success (env : AgentEnv) (ut : String)
    (vd : Option Int) (N : Nat) :
    ((run_a2a_workflow env ut vd N).success = false →
      (run_a2a_workflow env ut vd N).approved_prompt = none ∧
      (run_a2a_workflow env ut vd N).youtube_metadata = none ∧
      (run_a2a_workflow env ut vd N).final_score = 0) ∧
    ((run_a2a_workflow env ut vd N).success = true →
      (run_a2a_workflow env ut vd N).approved_prompt.isSome ∧
      (run_a2a_workflow env ut vd N).youtube_metadata.isSome) :=
  runLoop_inv env ut vd N N 0 ut []

/-- Witness for claim C10 at the concrete always-rejecting environment
(a failure return, where the reviewer had scored the rejected attempt
with 40). -/
theorem claim_C10_witness :
    (run_a2a_workflow envAllReject "Rain" none 1).approved_prompt = none ∧
    (run_a2a_workflow envAllReject "Rain" none 1).youtube_metadata = none ∧
    (run_a2a_workflow envAllReject "Rain" none 1).final_score = 0 :=
  (claim_C10_payload_iff_success envAllReject "Rain" none 1).1 rfl

end A2A
